import Mathlib

/-!
Shallow embedding of `src/phylogenetics/project.py` (class
`PhylogeneticsProject`): a stateful wrapper over one in-memory pandas
DataFrame plus one on-disk project directory, delegating tree inference,
file parsing and ancestral reconstruction to external tools.

The pure/filesystem-visible behaviour of each method is embedded as a Lean
function; the filesystem is explicit state, Python exceptions are an
explicit error type, and the external collaborators (PhyML, phylopandas
readers/writers, pyasr) are parameters or are modelled at the granularity
the source observes them (a file either exists with some content or does
not; the subprocess returns an exit status and may change the filesystem).
-/

set_option autoImplicit false

namespace Phylogenetics

/-- One row of the project table.  The eight columns fixed in
`PhylogeneticsProject.__init__`: `uid`, `description`, `id`, `label`,
`sequence`, `type`, `parent`, `branch_length`. -/
structure Row where
  uid : String
  description : String
  id : String
  label : String
  sequence : String
  type : String
  parent : Option String
  branch_length : Option Rat
  deriving DecidableEq, Repr

/-- A pandas DataFrame as the source uses it: an ordered list of column
names plus an ordered list of rows. -/
structure DataFrame where
  columns : List String
  rows : List Row
  deriving DecidableEq, Repr

/-- The column list built in `PhylogeneticsProject.__init__`. -/
def projectColumns : List String :=
  ["uid", "description", "id", "label", "sequence", "type", "parent",
   "branch_length"]

/-- The project object: `self.project_dir` and `self.data`. -/
structure PhylogeneticsProject where
  project_dir : String
  data : DataFrame
  deriving DecidableEq, Repr

/-- Python exceptions the embedded code can raise, named after the events
in the source.  `projectAlreadyExists` is the `Exception` raised by
`__init__`; `attributeError` is a failed `getattr`; `fileNotFound` is an
open/read of a missing path; `unpicklingError` is `pickle.load` on a file
whose bytes are not a pickled object; `formatError` is a reader applied
to a file whose content is not in its format. -/
inductive PyError where
  | projectAlreadyExists (msg : String)
  | attributeError (nm : String)
  | fileNotFound (path : String)
  | unpicklingError (path : String)
  | formatError (path : String)
  deriving DecidableEq, Repr

/-- A Python value as far as pickling observes it: either a
`PhylogeneticsProject` instance or some other object (tagged by a string).
`pickle.load` returns whatever object was dumped, of any type. -/
inductive PyValue where
  | project (p : PhylogeneticsProject)
  | other (tag : String)
  deriving DecidableEq, Repr

/-- Contents of a file as the source distinguishes them: a pickle blob
(`pickle.dump`), a phylip alignment (`to_phylip`), a newick tree readable
by `phylopandas.read_newick` (already parsed to its tabular form), or
anything else. -/
inductive FileContent where
  | pickled (v : PyValue)
  | phylip (df : DataFrame)
  | newick (df : DataFrame)
  | other (s : String)
  deriving DecidableEq, Repr

/-- The filesystem state: existing directories and files with contents. -/
structure FileSystem where
  dirs : List String
  files : List (String × FileContent)
  deriving DecidableEq, Repr

namespace FileSystem

/-- Read a file's content, `none` if no file is at `path`. -/
def readFile (fs : FileSystem) (path : String) : Option FileContent :=
  (fs.files.find? (fun kv => kv.1 == path)).map (fun kv => kv.2)

/-- Whether a file exists at `path`. -/
def existsFile (fs : FileSystem) (path : String) : Bool :=
  (fs.readFile path).isSome

/-- `os.path.exists`: true for a directory or a file at `path`. -/
def pathExists (fs : FileSystem) (path : String) : Bool :=
  fs.dirs.contains path || fs.existsFile path

/-- Write (create or overwrite) the file at `path`. -/
def writeFile (fs : FileSystem) (path : String) (c : FileContent) :
    FileSystem :=
  { fs with files := (path, c) :: fs.files.filter (fun kv => kv.1 != path) }

/-- `os.makedirs`: create the directory at `path`. -/
def makedirs (fs : FileSystem) (path : String) : FileSystem :=
  { fs with dirs := path :: fs.dirs }

end FileSystem

/-- `os.path.join(a, b)` for a simple relative component. -/
def joinPath (a b : String) : String := a ++ "/" ++ b

/-- `PhylogeneticsProject.__init__(project_dir, overwrite=False)`:
raises if the path exists and `overwrite` is `False`; creates the
directory if it does not exist; initializes `self.data` as an empty
DataFrame with the eight project columns. -/
def PhylogeneticsProject.init (fs : FileSystem) (project_dir : String)
    (overwrite : Bool) :
    Except PyError (FileSystem × PhylogeneticsProject) :=
  if fs.pathExists project_dir && overwrite == false then
    .error (.projectAlreadyExists
      "Project already exists! Use `PhylogeneticsProject.load_pickle` or delete the project.")
  else
    let fs := if !fs.pathExists project_dir then fs.makedirs project_dir
              else fs
    .ok (fs, { project_dir := project_dir
               data := { columns := projectColumns, rows := [] } })

/-- `PhylogeneticsProject.to_pickle(filename)`: `pickle.dump(self, f)` into
the file at `filename`, overwriting it. -/
def PhylogeneticsProject.to_pickle (p : PhylogeneticsProject)
    (fs : FileSystem) (filename : String) : FileSystem :=
  fs.writeFile filename (.pickled (.project p))

/-- `PhylogeneticsProject.load_pickle(filename)` (static): opens the file
and returns `pickle.load(f)` as-is — whatever object is in the file, with
no validation of its type or shape. -/
def PhylogeneticsProject.load_pickle (fs : FileSystem) (filename : String) :
    Except PyError PyValue :=
  match fs.readFile filename with
  | none => .error (.fileNotFound filename)
  | some (.pickled v) => .ok v
  | some _ => .error (.unpicklingError filename)

/-- Keyword arguments / Python dict with string keys, insertion-ordered. -/
abbrev Kwargs (α : Type) : Type := List (String × α)

/-- Python `d[k]` lookup (first — and in a dict, only — entry for `k`). -/
def dictGet {α : Type} (d : Kwargs α) (k : String) : Option α :=
  (List.find? (fun kv => kv.1 == k) d).map (fun kv => kv.2)

/-- Python `d[k] = v`: overwrite in place if the key is present (keeping
its position), else append at the end. -/
def dictSet {α : Type} : Kwargs α → String → α → Kwargs α
  | [], k, v => [(k, v)]
  | kv :: d, k, v =>
      if kv.1 == k then (k, v) :: d else kv :: dictSet d k v

/-- Python `d.update(**kws)`: set every binding of `kws` in `d`, later
bindings overwriting earlier ones and defaults alike. -/
def dictUpdate {α : Type} (d kws : Kwargs α) : Kwargs α :=
  List.foldl (fun acc kv => dictSet acc kv.1 kv.2) d kws

/-- A format-specific table reader as `read_data` observes it: takes the
path and the keyword arguments, returns the parsed DataFrame.  The
concrete readers live in phylopandas/pandas, outside this repository. -/
abbrev Reader : Type := String → Kwargs String → DataFrame

/-- `PhylogeneticsProject.read_data(path, schema, **kwargs)`: builds the
handler name `read_<schema>`, looks it up first on `self.data.phylo`
(any failure there falls through the bare `except:`), then on
`self.data`; a miss on both raises `AttributeError`.  On a hit the table
is replaced wholesale by `method(path, **kwargs)`. -/
def PhylogeneticsProject.read_data (p : PhylogeneticsProject)
    (phyloAccessor dataAccessor : Kwargs Reader)
    (path schema : String) (kwargs : Kwargs String) :
    Except PyError PhylogeneticsProject :=
  let method_name := "read_" ++ schema
  match dictGet phyloAccessor method_name with
  | some method => .ok { p with data := method path kwargs }
  | none =>
    match dictGet dataAccessor method_name with
    | some method => .ok { p with data := method path kwargs }
    | none => .error (.attributeError method_name)

/-- The options dict built in `compute_tree` before the PhyML call:
input path and the four configurable fields, then
`options.update(**kwargs)` with the caller's extra keyword arguments
(an override wins on key collision). -/
def phymlOptions (path datatype bootstrap model frequencies : String)
    (kwargs : Kwargs String) : Kwargs String :=
  dictUpdate
    [("input", path), ("datatype", datatype), ("bootstrap", bootstrap),
     ("model", model), ("frequencies", frequencies)]
    kwargs

/-- `str(Bio.Phylo.Applications.PhymlCommandline(**options)).split()`:
the command-line form of the options record.  The exact flag spelling is
owned by Biopython; what the source depends on is only that the argv is a
function of the options dict. -/
def phymlCommandline (options : Kwargs String) : List String :=
  "phyml" :: List.foldr (fun kv acc => ("--" ++ kv.1) :: kv.2 :: acc)
    [] options

/-- The fixed input filename `compute_tree.phy` joined to the project
directory. -/
def treeInputPath (p : PhylogeneticsProject) : String :=
  joinPath p.project_dir "compute_tree.phy"

/-- The fixed expected output filename `compute_tree.phy_phyml_tree`
joined to the project directory. -/
def treeOutPath (p : PhylogeneticsProject) : String :=
  joinPath p.project_dir "compute_tree.phy_phyml_tree"

/-- `phylopandas.read_newick(path)`: reads the newick file at `path` into
its tabular form; a missing path cannot be read and raises, and a file
that is not a newick tree raises as well. -/
def read_newick (fs : FileSystem) (path : String) :
    Except PyError DataFrame :=
  match fs.readFile path with
  | none => .error (.fileNotFound path)
  | some (.newick df) => .ok df
  | some _ => .error (.formatError path)

/-- The line `tree_data.loc[tree_data.type == 'leaf', 'uid'] =
tree_data.id`: every row of type `"leaf"` gets its `uid` overwritten with
its `id`; all other rows are untouched. -/
def swapLeafUids (df : DataFrame) : DataFrame :=
  { df with rows := df.rows.map (fun r =>
      if r.type == "leaf" then { r with uid := r.id } else r) }

/-- `self.data.phylo.combine(tree_data, on='uid')`, the external
phylopandas merge.  Modelled per spec section 4.3 step 7 (the policy is
owned by phylopandas): a left-join-like combine keyed on `uid` — each
existing row matching a tree row by `uid` is reconciled with the
tree-derived fields, and tree rows whose `uid` matches no existing row
are still added. -/
def phyloCombine (left tree : DataFrame) : DataFrame :=
  { columns := left.columns
    rows :=
      left.rows.map (fun r =>
        match List.find? (fun t => t.uid == r.uid) tree.rows with
        | some t => { r with label := t.label, type := t.type,
                             parent := t.parent,
                             branch_length := t.branch_length }
        | none => r)
      ++ tree.rows.filter (fun t =>
          !(left.rows.any (fun r => r.uid == t.uid))) }

/-- Outcome of a mutating method call: the filesystem afterwards, the
object afterwards (Python objects survive a raised exception with
whatever mutations had happened), and the exception if one was raised. -/
structure StepResult where
  fs : FileSystem
  proj : PhylogeneticsProject
  err : Option PyError
  deriving DecidableEq, Repr

/-- The external tree-inference process (`subprocess.run(cml_args)`):
given the argv and the current filesystem, it runs to completion and
yields its exit status together with the filesystem it leaves behind. -/
abbrev ToolRun : Type := List String → FileSystem → Int × FileSystem

/-- `PhylogeneticsProject.compute_tree(sequence_col='sequence',
datatype='aa', bootstrap='-1', model='LG', frequencies='e', **kwargs)`:
writes the phylip input file, builds the PhyML options, runs the external
process synchronously (its return value `output` is never inspected),
falls back to the `.txt`-suffixed output path when the primary is absent,
parses the newick output, swaps `uid` for `id` on leaf rows, and only
then assigns the combined table to `self.data`. -/
def PhylogeneticsProject.compute_tree (p : PhylogeneticsProject)
    (fs : FileSystem) (run : ToolRun)
    (datatype bootstrap model frequencies : String)
    (kwargs : Kwargs String) : StepResult :=
  let path := treeInputPath p
  let fs := fs.writeFile path (.phylip p.data)
  let options := phymlOptions path datatype bootstrap model frequencies
    kwargs
  let cml_args := phymlCommandline options
  let out := run cml_args fs
  let fs := out.2
  let outpath := treeOutPath p
  let outpath := if !fs.pathExists outpath then outpath ++ ".txt"
                 else outpath
  match read_newick fs outpath with
  | .error e => { fs := fs, proj := p, err := some e }
  | .ok tree_data =>
    let tree_data := swapLeafUids tree_data
    { fs := fs
      proj := { p with data := phyloCombine p.data tree_data }
      err := none }

/-- The external reconstruction routine `pyasr.reconstruct` as
`compute_reconstruction` observes it: takes the table, `id_col`,
`sequence_col`, `working_dir`, `altall_cutoff`, `aaRatefile` and the
extra keyword arguments, and either returns the enriched table or
raises. -/
abbrev Reconstructor : Type :=
  DataFrame → String → String → String → Rat → String → Kwargs String →
    Except PyError DataFrame

/-- `PhylogeneticsProject.compute_reconstruction(id_col='uid',
sequence_col='sequence', altall_cutoff=0.2, aaRatefile='lg', **kwargs)`:
calls `pyasr.reconstruct` with the table, the two column names, the
project directory as working space, the cutoff, the rate file and the
extra keyword arguments, and replaces `self.data` wholesale with the
result; a raise from the routine leaves `self.data` untouched.  (The
routine's own filesystem effects inside `working_dir` are owned by
pyasr and not observed by this method.) -/
def PhylogeneticsProject.compute_reconstruction (p : PhylogeneticsProject)
    (reconstruct : Reconstructor)
    (id_col sequence_col : String) (altall_cutoff : Rat)
    (aaRatefile : String) (kwargs : Kwargs String) :
    PhylogeneticsProject × Option PyError :=
  match reconstruct p.data id_col sequence_col p.project_dir altall_cutoff
      aaRatefile kwargs with
  | .ok df => ({ p with data := df }, none)
  | .error e => (p, some e)

/-- Concrete sample leaf row (tool-assigned `uid`, caller's `id`) for
evaluating the embedded operations on closed inputs. -/
def leafRowW : Row :=
  { uid := "uid0000001", description := "", id := "seq1", label := "seq1",
    sequence := "MKV", type := "leaf", parent := some "node1",
    branch_length := some (1 / 10) }

/-- Concrete sample internal-node row for evaluating the embedded
operations on closed inputs. -/
def innerRowW : Row :=
  { uid := "node1", description := "", id := "node1", label := "",
    sequence := "", type := "node", parent := none,
    branch_length := none }

/-- Concrete sample parsed tree table: one leaf row and one internal
row. -/
def treeTableW : DataFrame :=
  { columns := projectColumns, rows := [leafRowW, innerRowW] }

/-- Concrete sample project with an empty table at directory `proj`. -/
def emptyProjW : PhylogeneticsProject :=
  { project_dir := "proj", data := { columns := projectColumns, rows := [] } }

/-- Concrete sample filesystem holding only the project directory. -/
def baseFsW : FileSystem := { dirs := ["proj"], files := [] }

/-- Concrete sample filesystem as the external tool would leave it, with
the tree written at the fixed expected output path. -/
def toolOutFsW : FileSystem :=
  { dirs := ["proj"]
    files := [("proj/compute_tree.phy_phyml_tree", .newick treeTableW)] }

/-- Concrete sample filesystem as an old tool version would leave it,
with the tree written at the `.txt`-suffixed output path. -/
def toolOutTxtFsW : FileSystem :=
  { dirs := ["proj"]
    files := [("proj/compute_tree.phy_phyml_tree.txt", .newick treeTableW)] }

/-! Helper lemmas about the filesystem and dict models. -/

theorem FileSystem.readFile_writeFile_self (fs : FileSystem) (path : String)
    (c : FileContent) : (fs.writeFile path c).readFile path = some c := by
  simp [FileSystem.readFile, FileSystem.writeFile, List.find?]

theorem dictGet_dictSet_self {α : Type} (d : Kwargs α) (k : String) (v : α) :
    dictGet (dictSet d k v) k = some v := by
  induction d with
  | nil => simp [dictSet, dictGet, List.find?]
  | cons kv d ih =>
    by_cases h : kv.1 == k
    · simp [dictSet, h, dictGet, List.find?]
    · simp only [dictSet, h, Bool.false_eq_true, if_false]
      simpa [dictGet, List.find?, h] using ih

theorem dictGet_dictSet_ne {α : Type} (d : Kwargs α) (k k' : String) (v : α)
    (h : ¬k' = k) : dictGet (dictSet d k v) k' = dictGet d k' := by
  have hkk : (k == k') = false :=
    beq_eq_false_iff_ne.mpr fun he => h he.symm
  induction d with
  | nil => simp [dictSet, dictGet, List.find?, hkk]
  | cons kv d ih =>
    cases hk : kv.1 == k with
    | true =>
      have hkey : kv.1 = k := by simpa using hk
      have hkv : (kv.1 == k') = false := by rw [hkey]; exact hkk
      simp [dictSet, hk, dictGet, List.find?, hkk, hkv]
    | false =>
      cases hkv : kv.1 == k' with
      | true => simp [dictSet, hk, dictGet, List.find?, hkv]
      | false => simpa [dictSet, hk, dictGet, List.find?, hkv] using ih

theorem dictGet_eq_none_of_not_mem {α : Type} (d : Kwargs α) (k : String)
    (h : k ∉ d.map Prod.fst) : dictGet d k = none := by
  induction d with
  | nil => simp [dictGet, List.find?]
  | cons kv d ih =>
    simp only [List.map_cons, List.mem_cons] at h
    push_neg at h
    have hkv : (kv.1 == k) = false :=
      beq_eq_false_iff_ne.mpr fun he => h.1 he.symm
    simpa [dictGet, List.find?, hkv] using ih h.2

theorem dictGet_dictUpdate_of_none {α : Type} (d kws : Kwargs α) (k : String)
    (h : dictGet kws k = none) :
    dictGet (dictUpdate d kws) k = dictGet d k := by
  induction kws generalizing d with
  | nil => simp [dictUpdate]
  | cons kv kws ih =>
    have hk : (kv.1 == k) = false := by
      cases hkv : (kv.1 == k) with
      | false => rfl
      | true => simp [dictGet, List.find?, hkv] at h
    have htl : dictGet kws k = none := by
      simpa [dictGet, List.find?, hk] using h
    have hne : ¬k = kv.1 := by
      intro he
      simp [he] at hk
    calc dictGet (dictUpdate d (kv :: kws)) k
        = dictGet (dictUpdate (dictSet d kv.1 kv.2) kws) k := by
          simp [dictUpdate]
      _ = dictGet (dictSet d kv.1 kv.2) k := ih _ htl
      _ = dictGet d k := dictGet_dictSet_ne _ _ _ _ hne

theorem dictGet_dictUpdate_of_some {α : Type} (d kws : Kwargs α)
    (k : String) (v : α) (hnodup : (kws.map Prod.fst).Nodup)
    (h : dictGet kws k = some v) :
    dictGet (dictUpdate d kws) k = some v := by
  induction kws generalizing d with
  | nil => simp [dictGet, List.find?] at h
  | cons kv kws ih =>
    simp only [List.map_cons, List.nodup_cons] at hnodup
    by_cases hk : kv.1 == k
    · have hkey : kv.1 = k := by simpa using hk
      have hv : v = kv.2 := by
        simp [dictGet, List.find?, hk] at h
        exact h.symm
      have hnot : k ∉ kws.map Prod.fst := hkey ▸ hnodup.1
      have htl : dictGet kws k = none := dictGet_eq_none_of_not_mem _ _ hnot
      calc dictGet (dictUpdate d (kv :: kws)) k
          = dictGet (dictUpdate (dictSet d kv.1 kv.2) kws) k := by
            simp [dictUpdate]
        _ = dictGet (dictSet d kv.1 kv.2) k :=
            dictGet_dictUpdate_of_none _ _ _ htl
        _ = some v := by rw [hkey, dictGet_dictSet_self, hv]
    · have htl : dictGet kws k = some v := by
        simpa [dictGet, List.find?, hk] using h
      calc dictGet (dictUpdate d (kv :: kws)) k
          = dictGet (dictUpdate (dictSet d kv.1 kv.2) kws) k := by
            simp [dictUpdate]
        _ = some v := ih _ hnodup.2 htl

/-! Claims -/

/-- Claim C2: constructing a Project fails with the already-exists error
when the path exists and overwrite is false; at a fresh path it succeeds
and creates the directory; at an existing path with overwrite it succeeds
reusing the filesystem as-is; in both success cases the table is empty
with exactly the eight declared columns in declared order. -/
theorem init_create_semantics (fs : FileSystem) (project_dir : String)
    (overwrite : Bool) :
    (fs.pathExists project_dir = true → overwrite = false →
      PhylogeneticsProject.init fs project_dir overwrite =
        .error (.projectAlreadyExists
          "Project already exists! Use `PhylogeneticsProject.load_pickle` or delete the project.")) ∧
    (fs.pathExists project_dir = false →
      PhylogeneticsProject.init fs project_dir overwrite =
        .ok (fs.makedirs project_dir,
          { project_dir := project_dir
            data := { columns := projectColumns, rows := [] } })) ∧
    (fs.pathExists project_dir = true → overwrite = true →
      PhylogeneticsProject.init fs project_dir overwrite =
        .ok (fs,
          { project_dir := project_dir
            data := { columns := projectColumns, rows := [] } })) ∧
    projectColumns = ["uid", "description", "id", "label", "sequence",
      "type", "parent", "branch_length"] := by
  refine ⟨fun he ho => ?_, fun he => ?_, fun he ho => ?_, rfl⟩
  · simp [PhylogeneticsProject.init, he, ho]
  · simp [PhylogeneticsProject.init, he]
  · simp [PhylogeneticsProject.init, he, ho]

/-- Claim C2 witness: the three construction scenarios at concrete
filesystems. -/
theorem init_create_semantics_witness :
    (PhylogeneticsProject.init { dirs := ["proj"], files := [] } "proj"
        false =
      .error (.projectAlreadyExists
        "Project already exists! Use `PhylogeneticsProject.load_pickle` or delete the project.")) ∧
    (PhylogeneticsProject.init { dirs := [], files := [] } "proj" false =
      .ok (FileSystem.makedirs { dirs := [], files := [] } "proj",
        { project_dir := "proj"
          data := { columns := projectColumns, rows := [] } })) ∧
    (PhylogeneticsProject.init { dirs := ["proj"], files := [] } "proj"
        true =
      .ok ({ dirs := ["proj"], files := [] },
        { project_dir := "proj"
          data := { columns := projectColumns, rows := [] } })) :=
  ⟨(init_create_semantics { dirs := ["proj"], files := [] } "proj"
      false).1 (by decide) rfl,
   (init_create_semantics { dirs := [], files := [] } "proj"
      false).2.1 (by decide),
   (init_create_semantics { dirs := ["proj"], files := [] } "proj"
      true).2.2.1 (by decide) rfl⟩

/-- Claim C3: saving a Project with `to_pickle` and loading the file with
`load_pickle` yields a Project with identical directory and identical
table. -/
theorem pickle_round_trip (p : PhylogeneticsProject) (fs : FileSystem)
    (filename : String) :
    ∃ q, PhylogeneticsProject.load_pickle (p.to_pickle fs filename)
        filename = .ok (.project q) ∧
      q.project_dir = p.project_dir ∧ q.data = p.data :=
  ⟨p, by
    simp [PhylogeneticsProject.load_pickle, PhylogeneticsProject.to_pickle,
      FileSystem.readFile_writeFile_self], rfl, rfl⟩

/-- Claim C10: `load_pickle` performs no validation of the deserialized
value: whatever pickled object the file holds — of any type, not
necessarily a Project — is returned as-is. -/
theorem load_pickle_no_validation (fs : FileSystem) (filename : String)
    (v : PyValue) (h : fs.readFile filename = some (.pickled v)) :
    PhylogeneticsProject.load_pickle fs filename = .ok v := by
  simp [PhylogeneticsProject.load_pickle, h]

/-- Claim C10 witness: a file holding a pickled non-Project value is
loaded and returned as-is. -/
theorem load_pickle_no_validation_witness :
    FileSystem.readFile
        { dirs := [], files := [("f", .pickled (.other "a list of ints"))] }
        "f" = some (.pickled (.other "a list of ints")) ∧
      PhylogeneticsProject.load_pickle
        { dirs := [], files := [("f", .pickled (.other "a list of ints"))] }
        "f" = .ok (.other "a list of ints") :=
  ⟨by rfl,
   load_pickle_no_validation _ "f" (.other "a list of ints") (by rfl)⟩

/-- Claim C6: `read_data` builds the handler name `read_<schema>`, looks
it up on the primary accessor and then on the fallback accessor, invokes
the hit with the path and the keyword arguments and replaces the table
entirely with the parsed result; a miss on both lookup targets fails with
the attribute error (the unsupported-schema failure). -/
theorem read_data_dispatch (p : PhylogeneticsProject)
    (phyloAccessor dataAccessor : Kwargs Reader) (path schema : String)
    (kwargs : Kwargs String) :
    (∀ m, dictGet phyloAccessor ("read_" ++ schema) = some m →
      p.read_data phyloAccessor dataAccessor path schema kwargs =
        .ok { p with data := m path kwargs }) ∧
    (∀ m, dictGet phyloAccessor ("read_" ++ schema) = none →
      dictGet dataAccessor ("read_" ++ schema) = some m →
      p.read_data phyloAccessor dataAccessor path schema kwargs =
        .ok { p with data := m path kwargs }) ∧
    (dictGet phyloAccessor ("read_" ++ schema) = none →
      dictGet dataAccessor ("read_" ++ schema) = none →
      p.read_data phyloAccessor dataAccessor path schema kwargs =
        .error (.attributeError ("read_" ++ schema))) := by
  refine ⟨fun m h => ?_, fun m h1 h2 => ?_, fun h1 h2 => ?_⟩
  · simp [PhylogeneticsProject.read_data, h]
  · simp [PhylogeneticsProject.read_data, h1, h2]
  · simp [PhylogeneticsProject.read_data, h1, h2]

/-- Claim C6 witness: a schema found on the primary accessor, one found
only on the fallback accessor, and one found on neither. -/
theorem read_data_dispatch_witness :
    (PhylogeneticsProject.read_data
        { project_dir := "proj"
          data := { columns := projectColumns, rows := [] } }
        [("read_fasta", fun _ _ => { columns := ["sequence"], rows := [] })]
        [("read_csv", fun _ _ => { columns := [], rows := [] })]
        "in.fasta" "fasta" [] =
      .ok { project_dir := "proj"
            data := { columns := ["sequence"], rows := [] } }) ∧
    (PhylogeneticsProject.read_data
        { project_dir := "proj"
          data := { columns := projectColumns, rows := [] } }
        [("read_fasta", fun _ _ => { columns := ["sequence"], rows := [] })]
        [("read_csv", fun _ _ => { columns := [], rows := [] })]
        "in.csv" "csv" [] =
      .ok { project_dir := "proj"
            data := { columns := [], rows := [] } }) ∧
    (PhylogeneticsProject.read_data
        { project_dir := "proj"
          data := { columns := projectColumns, rows := [] } }
        [("read_fasta", fun _ _ => { columns := ["sequence"], rows := [] })]
        [("read_csv", fun _ _ => { columns := [], rows := [] })]
        "in.nex" "nexus" [] =
      .error (.attributeError "read_nexus")) :=
  ⟨(read_data_dispatch
      { project_dir := "proj"
        data := { columns := projectColumns, rows := [] } }
      [("read_fasta", fun _ _ => { columns := ["sequence"], rows := [] })]
      [("read_csv", fun _ _ => { columns := [], rows := [] })]
      "in.fasta" "fasta" []).1
      (fun _ _ => { columns := ["sequence"], rows := [] }) rfl,
   (read_data_dispatch
      { project_dir := "proj"
        data := { columns := projectColumns, rows := [] } }
      [("read_fasta", fun _ _ => { columns := ["sequence"], rows := [] })]
      [("read_csv", fun _ _ => { columns := [], rows := [] })]
      "in.csv" "csv" []).2.1
      (fun _ _ => { columns := [], rows := [] }) rfl rfl,
   (read_data_dispatch
      { project_dir := "proj"
        data := { columns := projectColumns, rows := [] } }
      [("read_fasta", fun _ _ => { columns := ["sequence"], rows := [] })]
      [("read_csv", fun _ _ => { columns := [], rows := [] })]
      "in.nex" "nexus" []).2.2 rfl rfl⟩

/-- Claim C7: the options record built for the external tool holds the
input path and the defaults — bootstrap `-1` (disabled), model `LG`,
frequencies `e` (empirical), datatype `aa` (amino acid) — for every key
the caller does not override, and every caller-supplied override wins on
key collision. -/
theorem phymlOptions_defaults_and_overrides (path : String)
    (kwargs : Kwargs String) (hnodup : (kwargs.map Prod.fst).Nodup) :
    (dictGet kwargs "input" = none →
      dictGet (phymlOptions path "aa" "-1" "LG" "e" kwargs) "input" =
        some path) ∧
    (dictGet kwargs "datatype" = none →
      dictGet (phymlOptions path "aa" "-1" "LG" "e" kwargs) "datatype" =
        some "aa") ∧
    (dictGet kwargs "bootstrap" = none →
      dictGet (phymlOptions path "aa" "-1" "LG" "e" kwargs) "bootstrap" =
        some "-1") ∧
    (dictGet kwargs "model" = none →
      dictGet (phymlOptions path "aa" "-1" "LG" "e" kwargs) "model" =
        some "LG") ∧
    (dictGet kwargs "frequencies" = none →
      dictGet (phymlOptions path "aa" "-1" "LG" "e" kwargs) "frequencies" =
        some "e") ∧
    (∀ k v, dictGet kwargs k = some v →
      dictGet (phymlOptions path "aa" "-1" "LG" "e" kwargs) k = some v) := by
  refine ⟨fun h => ?_, fun h => ?_, fun h => ?_, fun h => ?_, fun h => ?_,
    fun k v h => ?_⟩
  · rw [phymlOptions, dictGet_dictUpdate_of_none _ _ _ h]
    simp [dictGet, List.find?]
  · rw [phymlOptions, dictGet_dictUpdate_of_none _ _ _ h]
    simp [dictGet, List.find?]
  · rw [phymlOptions, dictGet_dictUpdate_of_none _ _ _ h]
    simp [dictGet, List.find?]
  · rw [phymlOptions, dictGet_dictUpdate_of_none _ _ _ h]
    simp [dictGet, List.find?]
  · rw [phymlOptions, dictGet_dictUpdate_of_none _ _ _ h]
    simp [dictGet, List.find?]
  · rw [phymlOptions]
    exact dictGet_dictUpdate_of_some _ _ _ _ hnodup h

/-- Claim C7 witness: with one colliding override and one extra key, the
override wins and the untouched defaults survive. -/
theorem phymlOptions_defaults_and_overrides_witness :
    (dictGet (phymlOptions "proj/compute_tree.phy" "aa" "-1" "LG" "e"
        [("bootstrap", "100"), ("no_memory_check", "")]) "input" =
      some "proj/compute_tree.phy") ∧
    (dictGet (phymlOptions "proj/compute_tree.phy" "aa" "-1" "LG" "e"
        [("bootstrap", "100"), ("no_memory_check", "")]) "model" =
      some "LG") ∧
    (dictGet (phymlOptions "proj/compute_tree.phy" "aa" "-1" "LG" "e"
        [("bootstrap", "100"), ("no_memory_check", "")]) "bootstrap" =
      some "100") ∧
    (dictGet (phymlOptions "proj/compute_tree.phy" "aa" "-1" "LG" "e"
        [("bootstrap", "100"), ("no_memory_check", "")]) "no_memory_check" =
      some "") :=
  ⟨(phymlOptions_defaults_and_overrides "proj/compute_tree.phy"
      [("bootstrap", "100"), ("no_memory_check", "")] (by decide)).1 rfl,
   (phymlOptions_defaults_and_overrides "proj/compute_tree.phy"
      [("bootstrap", "100"), ("no_memory_check", "")] (by decide)).2.2.2.1
      rfl,
   (phymlOptions_defaults_and_overrides "proj/compute_tree.phy"
      [("bootstrap", "100"), ("no_memory_check", "")] (by decide)).2.2.2.2.2
      "bootstrap" "100" rfl,
   (phymlOptions_defaults_and_overrides "proj/compute_tree.phy"
      [("bootstrap", "100"), ("no_memory_check", "")] (by decide)).2.2.2.2.2
      "no_memory_check" "" rfl⟩

/-- Claim C8: the external process's outcome is never inspected — the
whole result of `compute_tree` depends only on the filesystem the process
leaves behind, never on its exit status, and processing always continues
to the output-file location step. -/
theorem compute_tree_ignores_tool_exit (p : PhylogeneticsProject)
    (fs : FileSystem) (run1 run2 : ToolRun)
    (datatype bootstrap model frequencies : String)
    (kwargs : Kwargs String)
    (h : ∀ args f, (run1 args f).2 = (run2 args f).2) :
    p.compute_tree fs run1 datatype bootstrap model frequencies kwargs =
      p.compute_tree fs run2 datatype bootstrap model frequencies kwargs := by
  simp only [PhylogeneticsProject.compute_tree, h]

/-- Claim C8 witness: two runs differing only in exit status (0 versus
nonzero) produce the same call result. -/
theorem compute_tree_ignores_tool_exit_witness :
    PhylogeneticsProject.compute_tree emptyProjW baseFsW
        (fun _ f => (0, f)) "aa" "-1" "LG" "e" [] =
      PhylogeneticsProject.compute_tree emptyProjW baseFsW
        (fun _ f => (21, f)) "aa" "-1" "LG" "e" [] :=
  compute_tree_ignores_tool_exit emptyProjW baseFsW (fun _ f => (0, f))
    (fun _ f => (21, f)) "aa" "-1" "LG" "e" [] (fun _ _ => rfl)

/-- Claim C1: whenever `compute_tree` parses a tree table from the tool's
output, the table merged into the project table is the parsed table with
every `"leaf"` row's `uid` overwritten by its `id`, and with every
non-leaf row kept unchanged, identifier included. -/
theorem compute_tree_reassigns_leaf_uids (p : PhylogeneticsProject)
    (fs : FileSystem) (run : ToolRun) (td : DataFrame)
    (datatype bootstrap model frequencies : String)
    (kwargs : Kwargs String)
    (hout : ∀ args f,
      ((run args f).2).readFile (treeOutPath p) = some (.newick td)) :
    (p.compute_tree fs run datatype bootstrap model frequencies
        kwargs).err = none ∧
    (p.compute_tree fs run datatype bootstrap model frequencies
        kwargs).proj.data = phyloCombine p.data (swapLeafUids td) ∧
    ∀ (i : Nat) (r : Row), td.rows[i]? = some r →
      (r.type = "leaf" →
        (swapLeafUids td).rows[i]? = some { r with uid := r.id }) ∧
      (¬r.type = "leaf" → (swapLeafUids td).rows[i]? = some r) := by
  refine ⟨?_, ?_, fun i r hr => ⟨fun hleaf => ?_, fun hnot => ?_⟩⟩
  · simp [PhylogeneticsProject.compute_tree, read_newick,
      FileSystem.pathExists, FileSystem.existsFile, hout]
  · simp [PhylogeneticsProject.compute_tree, read_newick,
      FileSystem.pathExists, FileSystem.existsFile, hout]
  · simp [swapLeafUids, hr, hleaf]
  · have hb : (r.type == "leaf") = false := beq_eq_false_iff_ne.mpr hnot
    simp [swapLeafUids, hr, hb]
    intro h
    exact absurd h hnot

/-- Claim C1 witness: a parsed tree table with one leaf row and one
internal row; the leaf row's `uid` becomes its `id` and the internal row
is unchanged, and the merged table is built from the swapped table. -/
theorem compute_tree_reassigns_leaf_uids_witness :
    (PhylogeneticsProject.compute_tree emptyProjW baseFsW
        (fun _ _ => (0, toolOutFsW)) "aa" "-1" "LG" "e" []).err = none ∧
    (PhylogeneticsProject.compute_tree emptyProjW baseFsW
        (fun _ _ => (0, toolOutFsW)) "aa" "-1" "LG" "e" []).proj.data =
      phyloCombine emptyProjW.data (swapLeafUids treeTableW) ∧
    (swapLeafUids treeTableW).rows[0]? =
      some { leafRowW with uid := leafRowW.id } ∧
    (swapLeafUids treeTableW).rows[1]? = some innerRowW :=
  ⟨(compute_tree_reassigns_leaf_uids emptyProjW baseFsW
      (fun _ _ => (0, toolOutFsW)) treeTableW "aa" "-1" "LG" "e" []
      (fun _ _ => rfl)).1,
   (compute_tree_reassigns_leaf_uids emptyProjW baseFsW
      (fun _ _ => (0, toolOutFsW)) treeTableW "aa" "-1" "LG" "e" []
      (fun _ _ => rfl)).2.1,
   ((compute_tree_reassigns_leaf_uids emptyProjW baseFsW
      (fun _ _ => (0, toolOutFsW)) treeTableW "aa" "-1" "LG" "e" []
      (fun _ _ => rfl)).2.2 0 leafRowW rfl).1 rfl,
   ((compute_tree_reassigns_leaf_uids emptyProjW baseFsW
      (fun _ _ => (0, toolOutFsW)) treeTableW "aa" "-1" "LG" "e" []
      (fun _ _ => rfl)).2.2 1 innerRowW rfl).2 (by decide)⟩

/-- Claim C4: after the external process exits, if the fixed expected
output filename is absent but the `.txt`-suffixed variant holds a tree,
`compute_tree` succeeds using the suffixed file; if neither path exists,
the call fails with the missing-output error. -/
theorem compute_tree_output_fallback (p : PhylogeneticsProject)
    (fs : FileSystem) (run : ToolRun) (td : DataFrame)
    (datatype bootstrap model frequencies : String)
    (kwargs : Kwargs String)
    (hmiss : ∀ args f,
      ((run args f).2).pathExists (treeOutPath p) = false) :
    ((∀ args f, ((run args f).2).readFile (treeOutPath p ++ ".txt") =
        some (.newick td)) →
      (p.compute_tree fs run datatype bootstrap model frequencies
          kwargs).err = none ∧
      (p.compute_tree fs run datatype bootstrap model frequencies
          kwargs).proj.data = phyloCombine p.data (swapLeafUids td)) ∧
    ((∀ args f,
        ((run args f).2).readFile (treeOutPath p ++ ".txt") = none) →
      (p.compute_tree fs run datatype bootstrap model frequencies
          kwargs).err = some (.fileNotFound (treeOutPath p ++ ".txt")) ∧
      (p.compute_tree fs run datatype bootstrap model frequencies
          kwargs).proj = p) := by
  constructor
  · intro htxt
    constructor <;>
      simp [PhylogeneticsProject.compute_tree, read_newick, hmiss, htxt]
  · intro htxt
    constructor <;>
      simp [PhylogeneticsProject.compute_tree, read_newick, hmiss, htxt]

/-- Claim C4 witness: a tool run leaving only the `.txt`-suffixed output
succeeds with the tree from the suffixed file; a run leaving neither
output fails with the missing-output error. -/
theorem compute_tree_output_fallback_witness :
    (PhylogeneticsProject.compute_tree emptyProjW baseFsW
        (fun _ _ => (0, toolOutTxtFsW)) "aa" "-1" "LG" "e" []).err =
      none ∧
    (PhylogeneticsProject.compute_tree emptyProjW baseFsW
        (fun _ _ => (0, toolOutTxtFsW)) "aa" "-1" "LG" "e" []).proj.data =
      phyloCombine emptyProjW.data (swapLeafUids treeTableW) ∧
    (PhylogeneticsProject.compute_tree emptyProjW baseFsW
        (fun _ _ => (0, baseFsW)) "aa" "-1" "LG" "e" []).err =
      some (.fileNotFound (treeOutPath emptyProjW ++ ".txt")) ∧
    (PhylogeneticsProject.compute_tree emptyProjW baseFsW
        (fun _ _ => (0, baseFsW)) "aa" "-1" "LG" "e" []).proj =
      emptyProjW :=
  ⟨((compute_tree_output_fallback emptyProjW baseFsW
      (fun _ _ => (0, toolOutTxtFsW)) treeTableW "aa" "-1" "LG" "e" []
      (fun _ _ => rfl)).1 (fun _ _ => rfl)).1,
   ((compute_tree_output_fallback emptyProjW baseFsW
      (fun _ _ => (0, toolOutTxtFsW)) treeTableW "aa" "-1" "LG" "e" []
      (fun _ _ => rfl)).1 (fun _ _ => rfl)).2,
   ((compute_tree_output_fallback emptyProjW baseFsW
      (fun _ _ => (0, baseFsW)) treeTableW "aa" "-1" "LG" "e" []
      (fun _ _ => rfl)).2 (fun _ _ => rfl)).1,
   ((compute_tree_output_fallback emptyProjW baseFsW
      (fun _ _ => (0, baseFsW)) treeTableW "aa" "-1" "LG" "e" []
      (fun _ _ => rfl)).2 (fun _ _ => rfl)).2⟩

/-- Claim C5 is refuted by the code: `compute_tree` has no empty-input
guard.  Called on a project whose table is empty, it still writes the
phylip input file for the empty table and still starts the external
process (here a run that leaves a log file as its mark), instead of
rejecting the call before either side effect. -/
theorem compute_tree_empty_table_not_rejected :
    ((PhylogeneticsProject.compute_tree emptyProjW baseFsW
        (fun _ f => (0, f.writeFile "proj/phyml.log" (.other "invoked")))
        "aa" "-1" "LG" "e" []).fs.readFile (treeInputPath emptyProjW) =
      some (.phylip emptyProjW.data)) ∧
    ((PhylogeneticsProject.compute_tree emptyProjW baseFsW
        (fun _ f => (0, f.writeFile "proj/phyml.log" (.other "invoked")))
        "aa" "-1" "LG" "e" []).fs.existsFile "proj/phyml.log" = true) := by
  constructor <;> rfl

/-- Claim C9: both `compute_tree` and `compute_reconstruction` assign the
table only as their final step, so whenever a call raises, the project —
its table included — is exactly as it was before the call. -/
theorem table_unchanged_on_error :
    (∀ (p : PhylogeneticsProject) (fs : FileSystem) (run : ToolRun)
        (datatype bootstrap model frequencies : String)
        (kwargs : Kwargs String) (e : PyError),
      (p.compute_tree fs run datatype bootstrap model frequencies
          kwargs).err = some e →
      (p.compute_tree fs run datatype bootstrap model frequencies
          kwargs).proj = p) ∧
    (∀ (p : PhylogeneticsProject) (rec : Reconstructor)
        (id_col sequence_col : String) (altall_cutoff : Rat)
        (aaRatefile : String) (kwargs : Kwargs String) (e : PyError),
      (p.compute_reconstruction rec id_col sequence_col altall_cutoff
          aaRatefile kwargs).2 = some e →
      (p.compute_reconstruction rec id_col sequence_col altall_cutoff
          aaRatefile kwargs).1 = p) := by
  constructor
  · intro p fs run datatype bootstrap model frequencies kwargs e h
    revert h
    simp only [PhylogeneticsProject.compute_tree]
    split
    · intro _
      rfl
    · intro h
      simp at h
  · intro p rec id_col sequence_col altall_cutoff aaRatefile kwargs e h
    revert h
    simp only [PhylogeneticsProject.compute_reconstruction]
    split
    · intro h
      simp at h
    · intro _
      rfl

/-- Claim C9 witness: a tree computation failing at the output-location
step and a reconstruction whose external routine raises both leave the
project exactly as before. -/
theorem table_unchanged_on_error_witness :
    (PhylogeneticsProject.compute_tree emptyProjW baseFsW
        (fun _ f => (0, f)) "aa" "-1" "LG" "e" []).proj = emptyProjW ∧
    (PhylogeneticsProject.compute_reconstruction emptyProjW
        (fun _ _ _ _ _ _ _ => .error (.formatError "paml"))
        "uid" "sequence" (1 / 5) "lg" []).1 = emptyProjW :=
  ⟨table_unchanged_on_error.1 emptyProjW baseFsW (fun _ f => (0, f))
      "aa" "-1" "LG" "e" []
      (.fileNotFound (treeOutPath emptyProjW ++ ".txt")) rfl,
   table_unchanged_on_error.2 emptyProjW
      (fun _ _ _ _ _ _ _ => .error (.formatError "paml"))
      "uid" "sequence" (1 / 5) "lg" [] (.formatError "paml") rfl⟩

end Phylogenetics
